import Mathlib

/-!
Verification of the PPG heart-rate monitor (`src/main.py`).

The `HeartRateMonitor` class keeps three parallel lists (raw samples,
timestamps, moving-average filtered samples) bounded by `window_size`,
detects peaks in the filtered signal against a dynamic threshold, and
converts mean peak-to-peak intervals into beats per minute.

Modelling choices of this shallow embedding:
* Python numeric values are modelled as exact rationals (`ℚ`); Python's
  float literal `0.5` is the exact rational `1/2`.
* `utime.ticks_ms()` is an environment read performed inside
  `add_sample`; the embedding passes the clock value as an explicit
  `timestamp : ℕ` argument of `add_sample`.
* `utime.ticks_diff` is modelled from the documented MicroPython
  semantics (wraparound-safe signed difference with
  `TICKS_PERIOD = 2 ^ 30`), since `utime` is a platform library, not
  repository code.
* Python list method `pop(0)` is `List.tail`; the slice `l[-k:]` for
  `k ≥ 1` is `l.drop (l.length - k)` (and the whole list when `k = 0`).
* The division `sum(...) / smoothing_window` raises `ZeroDivisionError`
  in Python when `smoothing_window = 0`; the total model `add_sample`
  uses rational division (junk value `0` there) and the fallible model
  `add_sample_opt` returns `none` exactly when Python raises.
-/

/-- The state of `HeartRateMonitor` (`src/main.py`, `__init__`): the three
configuration fields and the three parallel lists.  Python constructor
defaults are `sample_rate=100, window_size=10, smoothing_window=5`. -/
structure HeartRateMonitor where
  sample_rate : ℕ
  window_size : ℕ
  smoothing_window : ℕ
  samples : List ℚ
  timestamps : List ℕ
  filtered_samples : List ℚ
deriving DecidableEq

/-- The constructor body: stores the three configuration numbers unchecked
and starts all three lists empty. -/
def HeartRateMonitor.init (sample_rate window_size smoothing_window : ℕ) :
    HeartRateMonitor :=
  ⟨sample_rate, window_size, smoothing_window, [], [], []⟩

/-- Modelled from the documented MicroPython semantics of
`utime.ticks_diff` (the `utime` module is not part of this repository):
wraparound-safe signed difference of two tick values, with
`TICKS_PERIOD = 2 ^ 30`. -/
def ticks_diff (a b : ℕ) : ℤ :=
  ((a : ℤ) - (b : ℤ) + 2 ^ 29) % 2 ^ 30 - 2 ^ 29

/-- The smoothing step of `add_sample` (`src/main.py` lines 23-27), taking
the sample list *after* the append: if `len(samples) >= smoothing_window`
the mean of the trailing `smoothing_window` raw values, else the raw
sample unchanged. -/
def smoothed_sample (samples : List ℚ) (smoothing_window : ℕ) (sample : ℚ) : ℚ :=
  if smoothing_window ≤ samples.length then
    (samples.drop (samples.length - smoothing_window)).sum / (smoothing_window : ℚ)
  else
    sample

/-- Model of `HeartRateMonitor.add_sample` (`src/main.py` lines 16-33): append the
raw value, the clock value read by `ticks_ms()`, and the smoothed value;
then if the length exceeds `window_size`, pop the front of all three
lists. -/
def add_sample (m : HeartRateMonitor) (sample : ℚ) (timestamp : ℕ) :
    HeartRateMonitor :=
  let samples := m.samples ++ [sample]
  let timestamps := m.timestamps ++ [timestamp]
  let filtered :=
    m.filtered_samples ++ [smoothed_sample samples m.smoothing_window sample]
  if m.window_size < samples.length then
    { m with
        samples := samples.tail
        timestamps := timestamps.tail
        filtered_samples := filtered.tail }
  else
    { m with
        samples := samples
        timestamps := timestamps
        filtered_samples := filtered }

/-- Fallible model of `add_sample`: Python raises `ZeroDivisionError` in
the smoothing branch exactly when the guard `len(samples) >=
smoothing_window` holds and `smoothing_window = 0`; that run is `none`.
Otherwise the call succeeds with the state of `add_sample`. -/
def add_sample_opt (m : HeartRateMonitor) (sample : ℚ) (timestamp : ℕ) :
    Option HeartRateMonitor :=
  if m.smoothing_window ≤ (m.samples ++ [sample]).length ∧ m.smoothing_window = 0 then
    none
  else
    some (add_sample m sample timestamp)

/-- Feeding a list of `(raw value, clock reading)` pairs through
`add_sample`, one call per pair, oldest first. -/
def run_adds (m : HeartRateMonitor) (inputs : List (ℚ × ℕ)) : HeartRateMonitor :=
  inputs.foldl (fun s p => add_sample s p.1 p.2) m

/-- Python `min` over a nonempty list (junk value `0` on `[]`, where
Python raises). -/
def listMin : List ℚ → ℚ
  | [] => 0
  | a :: l => l.foldl min a

/-- Python `max` over a nonempty list (junk value `0` on `[]`, where
Python raises). -/
def listMax : List ℚ → ℚ
  | [] => 0
  | a :: l => l.foldl max a

/-- Model of `recent_samples = self.filtered_samples[-self.window_size:]`
(`src/main.py` line 42); for `window_size = 0` the Python slice `[-0:]`
is the whole list. -/
def recent_samples (m : HeartRateMonitor) : List ℚ :=
  if m.window_size = 0 then m.filtered_samples
  else m.filtered_samples.drop (m.filtered_samples.length - m.window_size)

/-- Model of `threshold = min_val + (max_val - min_val) * 0.5` (`src/main.py`
lines 43-45). -/
def dynamic_threshold (m : HeartRateMonitor) : ℚ :=
  listMin (recent_samples m) +
    (listMax (recent_samples m) - listMin (recent_samples m)) * (1 / 2)

/-- The peak test of the loop body (`src/main.py` lines 49-53) at index
`i`. -/
def is_peak_at (m : HeartRateMonitor) (i : ℕ) : Bool :=
  decide (dynamic_threshold m < m.filtered_samples.getD i 0) &&
  decide (m.filtered_samples.getD (i - 1) 0 < m.filtered_samples.getD i 0) &&
  decide (m.filtered_samples.getD (i + 1) 0 < m.filtered_samples.getD i 0)

/-- Model of `HeartRateMonitor.find_peaks` (`src/main.py` lines 35-57): empty
result below 3 filtered samples, else one `(timestamp, filtered value)`
pair per qualifying index of `range(1, len - 1)`. -/
def find_peaks (m : HeartRateMonitor) : List (ℕ × ℚ) :=
  if m.filtered_samples.length < 3 then []
  else
    ((List.range' 1 (m.filtered_samples.length - 2)).filter (is_peak_at m)).map
      (fun i => (m.timestamps.getD i 0, m.filtered_samples.getD i 0))

/-- The interval list of `calculate_heart_rate` (`src/main.py` lines
67-70): `ticks_diff(peaks[i][0], peaks[i-1][0])` for `i` in
`range(1, len(peaks))`. -/
def peak_intervals (m : HeartRateMonitor) : List ℤ :=
  let ts := (find_peaks m).map Prod.fst
  (List.range' 1 (ts.length - 1)).map (fun i => ticks_diff (ts.getD i 0) (ts.getD (i - 1) 0))

/-- Model of `average_interval = sum(intervals) / len(intervals)` (`src/main.py`
line 72). -/
def average_interval (m : HeartRateMonitor) : ℚ :=
  ((peak_intervals m).sum : ℚ) / ((peak_intervals m).length : ℚ)

/-- Model of `HeartRateMonitor.calculate_heart_rate` (`src/main.py` lines 59-76):
`None` below 2 peaks, else `60000 / average_interval`. -/
def calculate_heart_rate (m : HeartRateMonitor) : Option ℚ :=
  if (find_peaks m).length < 2 then none
  else some (60000 / average_interval m)

/-- The `find_peaks` method as a state transformer `self ↦ (self',
result)`: the Python method body only reads `self`, so the outgoing
state is the incoming one. -/
def find_peaks_op (m : HeartRateMonitor) : HeartRateMonitor × List (ℕ × ℚ) :=
  (m, find_peaks m)

/-- The `calculate_heart_rate` method as a state transformer: its body
only reads `self`. -/
def calculate_heart_rate_op (m : HeartRateMonitor) : HeartRateMonitor × Option ℚ :=
  (m, calculate_heart_rate m)

-- Spec-side definitions, written from the words of the claims, to be
-- compared with the code-side definitions above.

/-- Written from the spec: the trailing `windowSize` filtered values
used for the threshold. -/
def trailing_window (m : HeartRateMonitor) : List ℚ :=
  m.filtered_samples.drop (m.filtered_samples.length - m.window_size)

/-- Written from the spec: `threshold = minVal + 0.5 * (maxVal - minVal)`
over the trailing `windowSize` filtered values. -/
def threshold_spec (m : HeartRateMonitor) : ℚ :=
  listMin (trailing_window m) +
    (1 / 2) * (listMax (trailing_window m) - listMin (trailing_window m))

/-- Written from the spec: index `i` qualifies as a peak iff
`filtered[i] > threshold`, `filtered[i-1] < filtered[i]` and
`filtered[i] > filtered[i+1]`. -/
def peak_cond (m : HeartRateMonitor) (i : ℕ) : Prop :=
  threshold_spec m < m.filtered_samples.getD i 0 ∧
  m.filtered_samples.getD (i - 1) 0 < m.filtered_samples.getD i 0 ∧
  m.filtered_samples.getD (i + 1) 0 < m.filtered_samples.getD i 0

instance (m : HeartRateMonitor) (i : ℕ) : Decidable (peak_cond m i) := by
  unfold peak_cond; infer_instance

/-- Written from the spec: the signed time differences between
chronologically adjacent timestamps, wraparound-safe. -/
def consecutive_diffs (l : List ℕ) : List ℤ :=
  List.zipWith (fun a b => ticks_diff a b) l.tail l

/-- Written from the spec: the arithmetic mean of the wraparound-safe
time differences between consecutive peaks. -/
def average_interval_spec (m : HeartRateMonitor) : ℚ :=
  ((consecutive_diffs ((find_peaks m).map Prod.fst)).sum : ℚ) /
    ((consecutive_diffs ((find_peaks m).map Prod.fst)).length : ℚ)

-- Helper lemmas about `add_sample` and `run_adds`.

theorem add_sample_def (m : HeartRateMonitor) (v : ℚ) (t : ℕ) :
    add_sample m v t =
      if m.window_size < m.samples.length + 1 then
        { m with
            samples := (m.samples ++ [v]).tail
            timestamps := (m.timestamps ++ [t]).tail
            filtered_samples := (m.filtered_samples ++
              [smoothed_sample (m.samples ++ [v]) m.smoothing_window v]).tail }
      else
        { m with
            samples := m.samples ++ [v]
            timestamps := m.timestamps ++ [t]
            filtered_samples := m.filtered_samples ++
              [smoothed_sample (m.samples ++ [v]) m.smoothing_window v] } := by
  simp only [add_sample, List.length_append, List.length_singleton]

theorem add_sample_window_size (m : HeartRateMonitor) (v : ℚ) (t : ℕ) :
    (add_sample m v t).window_size = m.window_size := by
  rw [add_sample_def]; split <;> rfl

theorem add_sample_smoothing_window (m : HeartRateMonitor) (v : ℚ) (t : ℕ) :
    (add_sample m v t).smoothing_window = m.smoothing_window := by
  rw [add_sample_def]; split <;> rfl

theorem run_adds_nil (m : HeartRateMonitor) : run_adds m [] = m := rfl

theorem run_adds_cons (m : HeartRateMonitor) (p : ℚ × ℕ) (l : List (ℚ × ℕ)) :
    run_adds m (p :: l) = run_adds (add_sample m p.1 p.2) l := rfl

theorem run_adds_window_size :
    ∀ (l : List (ℚ × ℕ)) (m : HeartRateMonitor),
      (run_adds m l).window_size = m.window_size := by
  intro l
  induction l with
  | nil => intro m; rfl
  | cons p l ih => intro m; rw [run_adds_cons, ih, add_sample_window_size]

theorem run_adds_smoothing_window :
    ∀ (l : List (ℚ × ℕ)) (m : HeartRateMonitor),
      (run_adds m l).smoothing_window = m.smoothing_window := by
  intro l
  induction l with
  | nil => intro m; rfl
  | cons p l ih => intro m; rw [run_adds_cons, ih, add_sample_smoothing_window]

theorem add_sample_lengths (m : HeartRateMonitor) (v : ℚ) (t : ℕ)
    (h1 : m.samples.length = m.timestamps.length)
    (h2 : m.timestamps.length = m.filtered_samples.length)
    (h3 : m.samples.length ≤ m.window_size) :
    (add_sample m v t).samples.length = (add_sample m v t).timestamps.length ∧
    (add_sample m v t).timestamps.length = (add_sample m v t).filtered_samples.length ∧
    (add_sample m v t).samples.length ≤ m.window_size := by
  rw [add_sample_def]
  split <;> simp [List.length_tail, List.length_append] <;> omega

theorem run_adds_lengths :
    ∀ (l : List (ℚ × ℕ)) (m : HeartRateMonitor),
      m.samples.length = m.timestamps.length →
      m.timestamps.length = m.filtered_samples.length →
      m.samples.length ≤ m.window_size →
      (run_adds m l).samples.length = (run_adds m l).timestamps.length ∧
      (run_adds m l).timestamps.length = (run_adds m l).filtered_samples.length ∧
      (run_adds m l).samples.length ≤ (run_adds m l).window_size := by
  intro l
  induction l with
  | nil => intro m h1 h2 h3; exact ⟨h1, h2, h3⟩
  | cons p l ih =>
    intro m h1 h2 h3
    obtain ⟨g1, g2, g3⟩ := add_sample_lengths m p.1 p.2 h1 h2 h3
    rw [run_adds_cons]
    exact ih _ g1 g2 (by rw [add_sample_window_size]; exact g3)

/-- C2: after every sequence of `add_sample` calls, the three parallel
sequences have equal length, and that common length never exceeds
`window_size`. -/
theorem bounded_window_c2 (sr ws sw : ℕ) (inputs : List (ℚ × ℕ)) :
    (run_adds (HeartRateMonitor.init sr ws sw) inputs).samples.length =
      (run_adds (HeartRateMonitor.init sr ws sw) inputs).timestamps.length ∧
    (run_adds (HeartRateMonitor.init sr ws sw) inputs).timestamps.length =
      (run_adds (HeartRateMonitor.init sr ws sw) inputs).filtered_samples.length ∧
    (run_adds (HeartRateMonitor.init sr ws sw) inputs).filtered_samples.length ≤ ws := by
  obtain ⟨g1, g2, g3⟩ :=
    run_adds_lengths inputs (HeartRateMonitor.init sr ws sw) rfl rfl (Nat.zero_le ws)
  refine ⟨g1, g2, ?_⟩
  rw [← g2, ← g1]
  rw [run_adds_window_size] at g3
  exact g3

-- Helper: the appended element is still the last one after eviction.

theorem getLast_tail_append {α : Type} (l : List α) (x : α) (h : l ≠ []) :
    ((l ++ [x]).tail).getLast? = some x := by
  cases l with
  | nil => exact absurd rfl h
  | cons a l => simp [List.getLast?_concat]

/-- C8: `add_sample` appends exactly the supplied raw value and exactly
the clock value read at call time (the caller-facing timestamp input of
the spec) at the back of the respective sequences.  The hypotheses are
the documented configuration contract (`windowSize` positive) and the
sliding-window invariant. -/
theorem append_inputs_c8 (m : HeartRateMonitor) (v : ℚ) (t : ℕ)
    (hws : 1 ≤ m.window_size)
    (hlen : m.samples.length = m.timestamps.length) :
    (add_sample m v t).samples.getLast? = some v ∧
    (add_sample m v t).timestamps.getLast? = some t := by
  rw [add_sample_def]
  by_cases h : m.window_size < m.samples.length + 1
  · rw [if_pos h]
    have hs : m.samples ≠ [] := by
      cases hs : m.samples with
      | nil => rw [hs] at h; simp at h; omega
      | cons a l => simp
    have ht : m.timestamps ≠ [] := by
      cases ht : m.timestamps with
      | nil => rw [ht] at hlen; simp at hlen; rw [hlen] at h; simp at h; omega
      | cons a l => simp
    exact ⟨getLast_tail_append _ _ hs, getLast_tail_append _ _ ht⟩
  · rw [if_neg h]
    exact ⟨by simp [List.getLast?_concat], by simp [List.getLast?_concat]⟩

/-- Witness for C8 at a concrete state. -/
theorem append_inputs_c8_witness :
    (add_sample ⟨100, 10, 5, [1], [7], [1]⟩ 3 42).samples.getLast? = some 3 ∧
    (add_sample ⟨100, 10, 5, [1], [7], [1]⟩ 3 42).timestamps.getLast? = some 42 :=
  append_inputs_c8 ⟨100, 10, 5, [1], [7], [1]⟩ 3 42 (by decide) (by decide)

/-- C9: `find_peaks` and `calculate_heart_rate` only read the state:
iterating either operation any number of times leaves the window
unchanged and returns the same result on every call. -/
theorem idempotent_reads_c9 (m : HeartRateMonitor) (n : ℕ) :
    (fun s => (find_peaks_op s).1)^[n] m = m ∧
    (fun s => (calculate_heart_rate_op s).1)^[n] m = m ∧
    (find_peaks_op ((fun s => (find_peaks_op s).1)^[n] m)).2 = (find_peaks_op m).2 ∧
    (calculate_heart_rate_op ((fun s => (calculate_heart_rate_op s).1)^[n] m)).2 =
      (calculate_heart_rate_op m).2 := by
  have h1 : (fun s : HeartRateMonitor => (find_peaks_op s).1) = id := rfl
  have h2 : (fun s : HeartRateMonitor => (calculate_heart_rate_op s).1) = id := rfl
  rw [h1, h2, Function.iterate_id]
  exact ⟨rfl, rfl, rfl, rfl⟩

/-- C5: below 3 filtered samples `find_peaks` returns the empty list,
and below 2 detected peaks `calculate_heart_rate` returns `none`. -/
theorem insufficient_history_c5 :
    (∀ m : HeartRateMonitor, m.filtered_samples.length < 3 → find_peaks m = []) ∧
    (∀ m : HeartRateMonitor, (find_peaks m).length < 2 → calculate_heart_rate m = none) := by
  constructor
  · intro m h
    rw [find_peaks, if_pos h]
  · intro m h
    rw [calculate_heart_rate, if_pos h]

/-- Witness for C5 at a concrete state. -/
theorem insufficient_history_c5_witness :
    find_peaks (HeartRateMonitor.init 100 10 5) = [] ∧
    calculate_heart_rate (HeartRateMonitor.init 100 10 5) = none :=
  ⟨insufficient_history_c5.1 _ (by decide), insufficient_history_c5.2 _ (by decide)⟩

/-- C10: the constructor stores a zero `smoothing_window` unchecked; with
it, every `add_sample` call takes the smoothing branch (the guard
`len(samples) >= smoothing_window` is vacuous) and divides by zero, so
the fallible run is `none`; for any positive `smoothing_window` the call
succeeds and agrees with the total model. -/
theorem zero_smoothing_c10 :
    (∀ sr ws : ℕ, (HeartRateMonitor.init sr ws 0).smoothing_window = 0) ∧
    (∀ (m : HeartRateMonitor) (v : ℚ) (t : ℕ), m.smoothing_window = 0 →
      add_sample_opt m v t = none) ∧
    (∀ (m : HeartRateMonitor) (v : ℚ) (t : ℕ), 1 ≤ m.smoothing_window →
      add_sample_opt m v t = some (add_sample m v t)) := by
  refine ⟨fun sr ws => rfl, ?_, ?_⟩
  · intro m v t h
    rw [add_sample_opt, if_pos ⟨by rw [h]; exact Nat.zero_le _, h⟩]
  · intro m v t h
    rw [add_sample_opt, if_neg]
    rintro ⟨-, h0⟩
    omega

/-- Witness for C10 at concrete states. -/
theorem zero_smoothing_c10_witness :
    add_sample_opt (HeartRateMonitor.init 100 10 0) 5 0 = none ∧
    add_sample_opt (HeartRateMonitor.init 100 10 5) 5 0 =
      some (add_sample (HeartRateMonitor.init 100 10 5) 5 0) :=
  ⟨zero_smoothing_c10.2.1 _ 5 0 rfl, zero_smoothing_c10.2.2 _ 5 0 (by decide)⟩

-- Characterization of the raw-sample buffer after a run: it is the
-- trailing slice of all appended raw values.

theorem add_sample_samples (m : HeartRateMonitor) (v : ℚ) (t : ℕ)
    (h : m.samples.length ≤ m.window_size) :
    (add_sample m v t).samples =
      (m.samples ++ [v]).drop (m.samples.length + 1 - m.window_size) := by
  rw [add_sample_def]
  by_cases h' : m.window_size < m.samples.length + 1
  · rw [if_pos h']
    have e : m.samples.length + 1 - m.window_size = 1 := by omega
    rw [e, List.drop_one]
  · rw [if_neg h']
    have e : m.samples.length + 1 - m.window_size = 0 := by omega
    rw [e, List.drop_zero]

theorem run_adds_samples :
    ∀ (l : List (ℚ × ℕ)) (m : HeartRateMonitor),
      m.samples.length ≤ m.window_size →
      (run_adds m l).samples =
        (m.samples ++ l.map Prod.fst).drop (m.samples.length + l.length - m.window_size) := by
  intro l
  induction l with
  | nil =>
    intro m h
    rw [run_adds_nil]
    simp [Nat.sub_eq_zero_of_le h]
  | cons p l ih =>
    intro m h
    have hlen : (add_sample m p.1 p.2).samples.length ≤ (add_sample m p.1 p.2).window_size := by
      rw [add_sample_samples m p.1 p.2 h, add_sample_window_size]
      simp only [List.length_drop, List.length_append, List.length_singleton]
      omega
    rw [run_adds_cons, ih _ hlen, add_sample_samples m p.1 p.2 h, add_sample_window_size]
    rw [← List.drop_append_of_le_length (by simp)]
    rw [List.drop_drop]
    rw [← List.append_cons]
    congr 1
    simp only [List.length_drop, List.length_append, List.length_singleton, List.length_cons,
      List.length_map, List.length_nil]
    omega

/-- The amended C3: the smoothing guard of the k-th call compares
`smoothing_window` against the *stored* sample count after the append,
`min k (window_size + 1)`, not against the total accumulated count `k`;
under that guard the appended filtered value is the mean of the most
recent `smoothing_window` raw values (including the one just appended),
otherwise it is the raw value; in particular for each of the first
`smoothing_window - 1` calls it is the raw value exactly.  Here `pre`
is the input fed by the earlier calls, so the call being described is
call number `pre.length + 1`. -/
theorem stored_guard_filter_c3 (sr ws sw : ℕ) (pre : List (ℚ × ℕ)) (v : ℚ)
    (hsw : 1 ≤ sw) :
    smoothed_sample ((run_adds (HeartRateMonitor.init sr ws sw) pre).samples ++ [v])
        (run_adds (HeartRateMonitor.init sr ws sw) pre).smoothing_window v =
      (if sw ≤ min (pre.length + 1) (ws + 1) then
        ((pre.map Prod.fst ++ [v]).drop (pre.length + 1 - sw)).sum / (sw : ℚ)
      else v) ∧
    (pre.length + 1 ≤ sw - 1 →
      smoothed_sample ((run_adds (HeartRateMonitor.init sr ws sw) pre).samples ++ [v])
        (run_adds (HeartRateMonitor.init sr ws sw) pre).smoothing_window v = v) := by
  have hsmw : (run_adds (HeartRateMonitor.init sr ws sw) pre).smoothing_window = sw := by
    rw [run_adds_smoothing_window]; rfl
  have hsam : (run_adds (HeartRateMonitor.init sr ws sw) pre).samples =
      (pre.map Prod.fst).drop (pre.length - ws) := by
    have h0 := run_adds_samples pre (HeartRateMonitor.init sr ws sw) (Nat.zero_le ws)
    simpa [HeartRateMonitor.init] using h0
  have hL : ((pre.map Prod.fst).drop (pre.length - ws) ++ [v]).length =
      pre.length - (pre.length - ws) + 1 := by simp
  have main : smoothed_sample ((run_adds (HeartRateMonitor.init sr ws sw) pre).samples ++ [v])
        (run_adds (HeartRateMonitor.init sr ws sw) pre).smoothing_window v =
      (if sw ≤ min (pre.length + 1) (ws + 1) then
        ((pre.map Prod.fst ++ [v]).drop (pre.length + 1 - sw)).sum / (sw : ℚ)
      else v) := by
    rw [hsmw, hsam, smoothed_sample]
    by_cases hg : sw ≤ min (pre.length + 1) (ws + 1)
    · rw [if_pos (by rw [hL]; omega), if_pos hg]
      rw [← List.drop_append_of_le_length (by simp)]
      rw [List.drop_drop]
      have e : pre.length - ws +
          ((List.drop (pre.length - ws) (List.map Prod.fst pre ++ [v])).length - sw) =
          pre.length + 1 - sw := by
        simp only [List.length_drop, List.length_append, List.length_map, List.length_singleton]
        omega
      rw [e]
    · rw [if_neg (by rw [hL]; omega), if_neg hg]
  refine ⟨main, fun h => ?_⟩
  rw [main, if_neg (by omega)]

/-- Counterexample to C3 as stated: with `window_size = 1` and
`smoothing_window = 3`, on the third call the total accumulated count is
3 ≥ 3, yet the appended filtered value is the raw value 30, not the mean
20 of the three most recent raw values, because eviction already dropped
stored history. -/
theorem stored_guard_filter_c3_counterexample :
    3 ≤ ([((10 : ℚ), (0 : ℕ)), (20, 1)] : List (ℚ × ℕ)).length + 1 ∧
    smoothed_sample
        ((run_adds (HeartRateMonitor.init 100 1 3) [(10, 0), (20, 1)]).samples ++ [30])
        (run_adds (HeartRateMonitor.init 100 1 3) [(10, 0), (20, 1)]).smoothing_window 30 = 30 ∧
    (30 : ℚ) ≠ ((10 : ℚ) + 20 + 30) / 3 := by
  refine ⟨by decide, by with_unfolding_all decide, by with_unfolding_all decide⟩

/-- Witness for the amended C3 at a concrete fourth call. -/
theorem stored_guard_filter_c3_witness :
    smoothed_sample
        ((run_adds (HeartRateMonitor.init 100 10 3) [(1, 0), (2, 1), (3, 2)]).samples ++ [4])
        (run_adds (HeartRateMonitor.init 100 10 3) [(1, 0), (2, 1), (3, 2)]).smoothing_window 4 =
      (if 3 ≤ min (([(1, 0), (2, 1), (3, 2)] : List (ℚ × ℕ)).length + 1) (10 + 1) then
        ((([(1, 0), (2, 1), (3, 2)] : List (ℚ × ℕ)).map Prod.fst ++ [4]).drop
          (([(1, 0), (2, 1), (3, 2)] : List (ℚ × ℕ)).length + 1 - 3)).sum / (3 : ℚ)
      else 4) ∧
    (([(1, 0), (2, 1), (3, 2)] : List (ℚ × ℕ)).length + 1 ≤ 3 - 1 →
      smoothed_sample
          ((run_adds (HeartRateMonitor.init 100 10 3) [(1, 0), (2, 1), (3, 2)]).samples ++ [4])
          (run_adds (HeartRateMonitor.init 100 10 3)
            [(1, 0), (2, 1), (3, 2)]).smoothing_window 4 = 4) :=
  stored_guard_filter_c3 100 10 3 [(1, 0), (2, 1), (3, 2)] 4 (by decide)

-- Facts about `listMin`/`listMax` on all-equal lists, used for the
-- flat-signal case.

theorem foldl_min_const (c : ℚ) :
    ∀ l : List ℚ, (∀ x ∈ l, x = c) → l.foldl min c = c := by
  intro l
  induction l with
  | nil => intro h; rfl
  | cons a l ih =>
    intro h
    rw [List.foldl_cons, h a (by simp), min_self]
    exact ih fun x hx => h x (by simp [hx])

theorem foldl_max_const (c : ℚ) :
    ∀ l : List ℚ, (∀ x ∈ l, x = c) → l.foldl max c = c := by
  intro l
  induction l with
  | nil => intro h; rfl
  | cons a l ih =>
    intro h
    rw [List.foldl_cons, h a (by simp), max_self]
    exact ih fun x hx => h x (by simp [hx])

theorem listMin_const (c : ℚ) (l : List ℚ) (hne : l ≠ []) (h : ∀ x ∈ l, x = c) :
    listMin l = c := by
  cases l with
  | nil => exact absurd rfl hne
  | cons a l =>
    rw [listMin, h a (by simp)]
    exact foldl_min_const c l fun x hx => h x (by simp [hx])

theorem listMax_const (c : ℚ) (l : List ℚ) (hne : l ≠ []) (h : ∀ x ∈ l, x = c) :
    listMax l = c := by
  cases l with
  | nil => exact absurd rfl hne
  | cons a l =>
    rw [listMax, h a (by simp)]
    exact foldl_max_const c l fun x hx => h x (by simp [hx])

/-- Flat filtered signal: the threshold equals the constant value, so no
sample strictly exceeds it and `find_peaks` reports nothing. -/
theorem find_peaks_flat (m : HeartRateMonitor) (c : ℚ)
    (h : ∀ x ∈ m.filtered_samples, x = c) : find_peaks m = [] := by
  rw [find_peaks]
  by_cases h3 : m.filtered_samples.length < 3
  · rw [if_pos h3]
  · rw [if_neg h3]
    have hrec_mem : ∀ x ∈ recent_samples m, x = c := by
      intro x hx
      rw [recent_samples] at hx
      by_cases h0 : m.window_size = 0
      · rw [if_pos h0] at hx; exact h x hx
      · rw [if_neg h0] at hx; exact h x (List.mem_of_mem_drop hx)
    have hrec_ne : recent_samples m ≠ [] := by
      rw [recent_samples]
      by_cases h0 : m.window_size = 0
      · rw [if_pos h0]
        exact List.ne_nil_of_length_pos (by omega)
      · rw [if_neg h0]
        apply List.ne_nil_of_length_pos
        rw [List.length_drop]
        omega
    have hthr : dynamic_threshold m = c := by
      rw [dynamic_threshold, listMin_const c _ hrec_ne hrec_mem,
        listMax_const c _ hrec_ne hrec_mem]
      ring
    have hfil : (List.range' 1 (m.filtered_samples.length - 2)).filter (is_peak_at m) = [] := by
      rw [List.filter_eq_nil_iff]
      intro i hi
      rw [List.mem_range'_1] at hi
      have hilen : i < m.filtered_samples.length := by omega
      have hc : m.filtered_samples.getD i 0 = c := by
        rw [List.getD_eq_getElem _ _ hilen]
        exact h _ (List.getElem_mem hilen)
      intro hcontra
      rw [is_peak_at, Bool.and_eq_true, Bool.and_eq_true] at hcontra
      obtain ⟨⟨h1, -⟩, -⟩ := hcontra
      rw [decide_eq_true_iff, hthr, hc] at h1
      exact lt_irrefl c h1
    rw [hfil]
    rfl

/-- With `smoothing_window ≥ 1`, feeding a constant raw value keeps all
three buffers constant: the mean of `smoothing_window` copies of `c` is
`c`. -/
theorem smoothed_sample_const (samples : List ℚ) (sw : ℕ) (v c : ℚ)
    (hsw : 1 ≤ sw) (hall : ∀ x ∈ samples, x = c) (hv : v = c) :
    smoothed_sample samples sw v = c := by
  rw [smoothed_sample]
  by_cases hg : sw ≤ samples.length
  · rw [if_pos hg]
    have hdrop : ∀ x ∈ samples.drop (samples.length - sw), x = c := fun x hx =>
      hall x (List.mem_of_mem_drop hx)
    rw [List.eq_replicate_of_mem hdrop, List.sum_replicate, List.length_drop, nsmul_eq_mul]
    have e : samples.length - (samples.length - sw) = sw := by omega
    rw [e]
    exact mul_div_cancel_left₀ c (Nat.cast_ne_zero.mpr (by omega))
  · rw [if_neg hg]
    exact hv

theorem run_adds_const :
    ∀ (l : List (ℚ × ℕ)) (m : HeartRateMonitor) (c : ℚ),
      1 ≤ m.smoothing_window →
      (∀ p ∈ l, p.1 = c) →
      (∀ x ∈ m.samples, x = c) →
      (∀ x ∈ m.filtered_samples, x = c) →
      ∀ x ∈ (run_adds m l).filtered_samples, x = c := by
  intro l
  induction l with
  | nil =>
    intro m c _ _ _ hf
    simpa [run_adds_nil] using hf
  | cons p l ih =>
    intro m c hsw hl hs hf
    have hp : p.1 = c := hl p (by simp)
    have hs' : ∀ x ∈ m.samples ++ [p.1], x = c := by
      intro x hx
      rcases List.mem_append.mp hx with hx | hx
      · exact hs x hx
      · simp at hx; rw [hx, hp]
    have hf' : ∀ x ∈ m.filtered_samples ++
        [smoothed_sample (m.samples ++ [p.1]) m.smoothing_window p.1], x = c := by
      intro x hx
      rcases List.mem_append.mp hx with hx | hx
      · exact hf x hx
      · simp at hx
        rw [hx]
        exact smoothed_sample_const _ _ _ _ hsw hs' hp
    rw [run_adds_cons]
    apply ih _ c
    · rw [add_sample_smoothing_window]; exact hsw
    · intro q hq; exact hl q (by simp [hq])
    · intro x hx
      rw [add_sample_def] at hx
      by_cases h' : m.window_size < m.samples.length + 1
      · rw [if_pos h'] at hx
        exact hs' x (List.mem_of_mem_tail hx)
      · rw [if_neg h'] at hx
        exact hs' x hx
    · intro x hx
      rw [add_sample_def] at hx
      by_cases h' : m.window_size < m.samples.length + 1
      · rw [if_pos h'] at hx
        exact hf' x (List.mem_of_mem_tail hx)
      · rw [if_neg h'] at hx
        exact hf' x hx

/-- A nondecreasing filtered sequence has no index with
`filtered[i] > filtered[i+1]`, so no peaks. -/
theorem find_peaks_nondecreasing (m : HeartRateMonitor)
    (h : List.Chain' (· ≤ ·) m.filtered_samples) : find_peaks m = [] := by
  rw [find_peaks]
  by_cases h3 : m.filtered_samples.length < 3
  · rw [if_pos h3]
  · rw [if_neg h3]
    have hfil : (List.range' 1 (m.filtered_samples.length - 2)).filter (is_peak_at m) = [] := by
      rw [List.filter_eq_nil_iff]
      intro i hi
      rw [List.mem_range'_1] at hi
      have hi1 : i < m.filtered_samples.length := by omega
      have hi2 : i + 1 < m.filtered_samples.length := by omega
      have hle := List.chain'_iff_get.mp h i (by omega)
      simp only [List.get_eq_getElem] at hle
      intro hcontra
      rw [is_peak_at, Bool.and_eq_true, Bool.and_eq_true] at hcontra
      obtain ⟨-, h3c⟩ := hcontra
      rw [decide_eq_true_iff, List.getD_eq_getElem _ _ hi1, List.getD_eq_getElem _ _ hi2] at h3c
      exact absurd h3c (not_lt.mpr hle)
    rw [hfil]
    rfl

/-- A nonincreasing filtered sequence has no index with
`filtered[i-1] < filtered[i]` among the scanned interior indices, so no
peaks. -/
theorem find_peaks_nonincreasing (m : HeartRateMonitor)
    (h : List.Chain' (fun a b => b ≤ a) m.filtered_samples) : find_peaks m = [] := by
  rw [find_peaks]
  by_cases h3 : m.filtered_samples.length < 3
  · rw [if_pos h3]
  · rw [if_neg h3]
    have hfil : (List.range' 1 (m.filtered_samples.length - 2)).filter (is_peak_at m) = [] := by
      rw [List.filter_eq_nil_iff]
      intro i hi
      rw [List.mem_range'_1] at hi
      have hi1 : i - 1 < m.filtered_samples.length := by omega
      have hi2 : i < m.filtered_samples.length := by omega
      have hle := List.chain'_iff_get.mp h (i - 1) (by omega)
      have e : i - 1 + 1 = i := by omega
      simp only [List.get_eq_getElem, e] at hle
      intro hcontra
      rw [is_peak_at, Bool.and_eq_true, Bool.and_eq_true] at hcontra
      obtain ⟨⟨-, h2c⟩, -⟩ := hcontra
      rw [decide_eq_true_iff, List.getD_eq_getElem _ _ hi1, List.getD_eq_getElem _ _ hi2] at h2c
      exact absurd h2c (not_lt.mpr hle)
    rw [hfil]
    rfl

/-- The amended C6: a constant raw input sequence of any length yields
zero peaks (the flat filtered signal makes the threshold equal the
constant, which no sample strictly exceeds), and whenever the *filtered*
sequence is monotone (nondecreasing or nonincreasing) `find_peaks`
returns zero peaks; strictly monotone *raw* input, however, can yield
peaks (see the counterexample), because the moving-average warm-up can
create a strict local maximum in the filtered sequence. -/
theorem monotone_flat_c6 :
    (∀ (sr ws sw : ℕ) (inputs : List (ℚ × ℕ)) (c : ℚ), 1 ≤ sw →
      (∀ p ∈ inputs, p.1 = c) →
      find_peaks (run_adds (HeartRateMonitor.init sr ws sw) inputs) = []) ∧
    (∀ m : HeartRateMonitor, List.Chain' (· ≤ ·) m.filtered_samples → find_peaks m = []) ∧
    (∀ m : HeartRateMonitor, List.Chain' (fun a b => b ≤ a) m.filtered_samples →
      find_peaks m = []) := by
  refine ⟨?_, find_peaks_nondecreasing, find_peaks_nonincreasing⟩
  intro sr ws sw inputs c hsw hc
  apply find_peaks_flat _ c
  exact run_adds_const inputs (HeartRateMonitor.init sr ws sw) c hsw hc
    (by intro x hx; simp [HeartRateMonitor.init] at hx)
    (by intro x hx; simp [HeartRateMonitor.init] at hx)

/-- Counterexample to C6 as stated: a strictly increasing raw sequence
(0, 10, 11 with `smoothing_window = 3`) and a strictly decreasing raw
sequence (100, 0, -1, -2 with `window_size = 3`) both make `find_peaks`
report a peak, through the warm-up discontinuity of the filter (and, in
the second case, eviction of the initial sample). -/
theorem monotone_flat_c6_counterexample :
    List.Chain' (· < ·) ([0, 10, 11] : List ℚ) ∧
    find_peaks (run_adds (HeartRateMonitor.init 100 10 3) [(0, 0), (10, 1), (11, 2)]) ≠ [] ∧
    List.Chain' (fun a b => b < a) ([100, 0, -1, -2] : List ℚ) ∧
    find_peaks (run_adds (HeartRateMonitor.init 100 3 3)
      [(100, 0), (0, 1), (-1, 2), (-2, 3)]) ≠ [] := by
  refine ⟨by norm_num [List.chain'_cons], by with_unfolding_all decide,
    by norm_num [List.chain'_cons], by with_unfolding_all decide⟩

/-- Witness for the amended C6 at concrete inputs. -/
theorem monotone_flat_c6_witness :
    find_peaks (run_adds (HeartRateMonitor.init 100 10 5)
      [(7, 0), (7, 1), (7, 2), (7, 3)]) = [] ∧
    find_peaks ⟨100, 10, 5, [0, 1, 2], [0, 1, 2], [0, 1, 2]⟩ = [] ∧
    find_peaks ⟨100, 10, 5, [2, 1, 0], [0, 1, 2], [2, 1, 0]⟩ = [] :=
  ⟨monotone_flat_c6.1 100 10 5 _ 7 (by decide) (by decide),
   monotone_flat_c6.2.1 _ (by norm_num [List.chain'_cons]),
   monotone_flat_c6.2.2 _ (by norm_num [List.chain'_cons])⟩

/-- C7: `calculate_heart_rate` does not guard the interval average.  At
the first concrete state, two detected peaks share a timestamp, the
average interval is `0`, and the final conversion divides by that zero
(Python raises there) instead of discarding the result (the call does
not return `none`).  At the second, consecutive peak timestamps
decrease, and the call returns the negative estimate `-120` BPM
unclamped. -/
theorem unguarded_intervals_c7 :
    (2 ≤ (find_peaks ⟨100, 10, 5, [0, 10, 0, 10, 0], [0, 5, 9, 5, 30],
        [0, 10, 0, 10, 0]⟩).length ∧
      average_interval ⟨100, 10, 5, [0, 10, 0, 10, 0], [0, 5, 9, 5, 30],
        [0, 10, 0, 10, 0]⟩ = 0 ∧
      calculate_heart_rate ⟨100, 10, 5, [0, 10, 0, 10, 0], [0, 5, 9, 5, 30],
        [0, 10, 0, 10, 0]⟩ ≠ none) ∧
    (2 ≤ (find_peaks ⟨100, 10, 5, [0, 10, 0, 10, 0], [0, 1000, 9, 500, 30],
        [0, 10, 0, 10, 0]⟩).length ∧
      calculate_heart_rate ⟨100, 10, 5, [0, 10, 0, 10, 0], [0, 1000, 9, 500, 30],
        [0, 10, 0, 10, 0]⟩ = some (-120) ∧
      ((-120 : ℚ) < 0)) := by
  with_unfolding_all decide

-- The interval loop of `calculate_heart_rate` computes exactly the
-- consecutive differences of the peak timestamps.

theorem map_range'_diff_eq_zipWith (f : ℕ → ℕ → ℤ) (l : List ℕ) :
    (List.range' 1 (l.length - 1)).map (fun i => f (l.getD i 0) (l.getD (i - 1) 0)) =
      List.zipWith f l.tail l := by
  apply List.ext_getElem
  · simp only [List.length_map, List.length_range', List.length_zipWith, List.length_tail]
    omega
  · intro j h1 h2
    have hlen : j + 1 < l.length := by
      simp only [List.length_map, List.length_range'] at h1
      omega
    rw [List.getElem_map, List.getElem_range'_1, List.getElem_zipWith,
      List.getElem_tail]
    have e1 : 1 + j = j + 1 := Nat.add_comm 1 j
    have e2 : j + 1 - 1 = j := by omega
    rw [e1, e2, List.getD_eq_getElem _ _ hlen, List.getD_eq_getElem _ _ (by omega)]

theorem peak_intervals_eq (m : HeartRateMonitor) :
    peak_intervals m = consecutive_diffs ((find_peaks m).map Prod.fst) := by
  rw [peak_intervals, consecutive_diffs]
  exact map_range'_diff_eq_zipWith (fun a b => ticks_diff a b) _

/-- C4: with at least two detected peaks, `calculate_heart_rate` returns
`60000` divided by the arithmetic mean of the wraparound-safe
differences between consecutive peak timestamps; at the concrete state
whose peaks lie at timestamps 0 ms, 1000 ms and 2000 ms it returns
exactly 60 BPM. -/
theorem rate_conversion_c4 :
    (∀ m : HeartRateMonitor, 2 ≤ (find_peaks m).length →
      calculate_heart_rate m = some (60000 / average_interval_spec m)) ∧
    calculate_heart_rate ⟨100, 10, 5, [0, 10, 0, 10, 0, 10, 0],
      [0, 0, 500, 1000, 1500, 2000, 2500], [0, 10, 0, 10, 0, 10, 0]⟩ = some 60 := by
  constructor
  · intro m h
    rw [calculate_heart_rate, if_neg (by omega)]
    rw [average_interval, average_interval_spec, peak_intervals_eq]
  · with_unfolding_all decide

/-- Witness for C4 at the concrete three-peak state. -/
theorem rate_conversion_c4_witness :
    2 ≤ (find_peaks ⟨100, 10, 5, [0, 10, 0, 10, 0, 10, 0],
        [0, 0, 500, 1000, 1500, 2000, 2500], [0, 10, 0, 10, 0, 10, 0]⟩).length ∧
    calculate_heart_rate ⟨100, 10, 5, [0, 10, 0, 10, 0, 10, 0],
        [0, 0, 500, 1000, 1500, 2000, 2500], [0, 10, 0, 10, 0, 10, 0]⟩ =
      some (60000 / average_interval_spec ⟨100, 10, 5, [0, 10, 0, 10, 0, 10, 0],
        [0, 0, 500, 1000, 1500, 2000, 2500], [0, 10, 0, 10, 0, 10, 0]⟩) :=
  ⟨by with_unfolding_all decide,
   rate_conversion_c4.1 _ (by with_unfolding_all decide)⟩

-- The code threshold agrees with the spec threshold on states that
-- satisfy the sliding-window invariant.

theorem dynamic_threshold_eq_spec (m : HeartRateMonitor) (hws : m.window_size ≠ 0) :
    dynamic_threshold m = threshold_spec m := by
  rw [dynamic_threshold, threshold_spec, recent_samples, if_neg hws, trailing_window]
  ring

theorem is_peak_at_iff (m : HeartRateMonitor) (i : ℕ)
    (h : dynamic_threshold m = threshold_spec m) :
    is_peak_at m i = true ↔ peak_cond m i := by
  rw [is_peak_at, peak_cond, Bool.and_eq_true, Bool.and_eq_true, decide_eq_true_iff,
    decide_eq_true_iff, decide_eq_true_iff, h]
  tauto

/-- C1: on every window state satisfying the documented invariant and
holding at least 3 filtered samples, `find_peaks` reports exactly the
interior indices `1 ≤ i ≤ length - 2` satisfying the spec's three-part
peak condition, in increasing index order, each peak carrying the
timestamp and the filtered value stored at its index. -/
theorem peak_characterization_c1 (m : HeartRateMonitor)
    (h3 : 3 ≤ m.filtered_samples.length)
    (hts : m.timestamps.length = m.filtered_samples.length)
    (hws : m.filtered_samples.length ≤ m.window_size) :
    ∃ idxs : List ℕ,
      List.Sorted (· < ·) idxs ∧
      (∀ i : ℕ, i ∈ idxs ↔
        (1 ≤ i ∧ i ≤ m.filtered_samples.length - 2 ∧ peak_cond m i)) ∧
      find_peaks m = idxs.map
        (fun i => (m.timestamps.getD i 0, m.filtered_samples.getD i 0)) := by
  have hthr : dynamic_threshold m = threshold_spec m :=
    dynamic_threshold_eq_spec m (by omega)
  refine ⟨(List.range' 1 (m.filtered_samples.length - 2)).filter (is_peak_at m),
    (List.pairwise_lt_range' 1 _).filter _, ?_, ?_⟩
  · intro i
    rw [List.mem_filter, List.mem_range'_1]
    constructor
    · rintro ⟨⟨hi1, hi2⟩, hpk⟩
      exact ⟨hi1, by omega, (is_peak_at_iff m i hthr).mp hpk⟩
    · rintro ⟨hi1, hi2, hpk⟩
      exact ⟨⟨hi1, by omega⟩, (is_peak_at_iff m i hthr).mpr hpk⟩
  · rw [find_peaks, if_neg (by omega)]

/-- Witness for C1 at a concrete state with one peak. -/
theorem peak_characterization_c1_witness :
    3 ≤ (⟨100, 10, 5, [0, 10, 0], [0, 1, 2], [0, 10, 0]⟩ :
        HeartRateMonitor).filtered_samples.length ∧
    ∃ idxs : List ℕ,
      List.Sorted (· < ·) idxs ∧
      (∀ i : ℕ, i ∈ idxs ↔
        (1 ≤ i ∧ i ≤ (⟨100, 10, 5, [0, 10, 0], [0, 1, 2], [0, 10, 0]⟩ :
          HeartRateMonitor).filtered_samples.length - 2 ∧
          peak_cond ⟨100, 10, 5, [0, 10, 0], [0, 1, 2], [0, 10, 0]⟩ i)) ∧
      find_peaks ⟨100, 10, 5, [0, 10, 0], [0, 1, 2], [0, 10, 0]⟩ = idxs.map
        (fun i => ((⟨100, 10, 5, [0, 10, 0], [0, 1, 2], [0, 10, 0]⟩ :
            HeartRateMonitor).timestamps.getD i 0,
          (⟨100, 10, 5, [0, 10, 0], [0, 1, 2], [0, 10, 0]⟩ :
            HeartRateMonitor).filtered_samples.getD i 0)) :=
  ⟨by decide, peak_characterization_c1 _ (by decide) (by decide) (by decide)⟩
